import Mathlib

/-!
Verification of the spreadsheet-backed inventory/sales record model of the
DiscordInventory bot.  The definitions below are a shallow embedding of the
Python source: the Normalizer-style cell parsers and the decode/filter loop of
`GoogleSheetsManager.read_inventory` (src/google_sheets.py), the batched cell
writer `GoogleSheetsManager.write_data_to_row`, and the guided
creation/edit/sale submission flows (src/commands/add.py, src/commands/edit.py,
src/commands/sales.py).  Network and chat-transport collaborators are modelled
by explicit inputs (the registered user looked up in the database, the row
number returned by the external row-insertion script) and by an explicit list
of backing-store effects that each flow would issue.
-/

namespace DiscordInventory

/-! ## Python string primitives -/

/-- ASCII whitespace stripped by Python `str.strip()` (the unicode whitespace
Python additionally strips is outside this model). -/
def pyIsSpace (c : Char) : Bool :=
  c == ' ' || c == '\t' || c == '\n' || c == '\r' || c == '\x0b' || c == '\x0c'

/-- Model of Python `str.strip()`. -/
def pyStrip (s : String) : String :=
  String.mk (((s.data.dropWhile pyIsSpace).reverse.dropWhile pyIsSpace).reverse)

/-- Model of Python `str.upper()` (ASCII; the cell tokens compared in the code
are ASCII). -/
def pyUpper (s : String) : String :=
  String.mk (s.data.map Char.toUpper)

/-- Model of Python `str.replace(c, '')` for a one-character pattern, as used
in `.replace('$', '')` and `.replace(',', '')`. -/
def removeChar (c : Char) (s : String) : String :=
  String.mk (s.data.filter (fun d => d != c))

/-! ## Python numeric literal parsing

`int(...)` and `float(...)` in the source raise `ValueError` on malformed
input; every call site catches that, so the model returns `Option`. -/

/-- Continuation of a digit run: digits, with single underscores allowed only
between digits (Python 3 numeric-literal grouping). -/
def digitsUndAux : List Char → Bool
  | [] => true
  | c :: cs =>
    if c == '_' then
      match cs with
      | [] => false
      | d :: ds => d.isDigit && digitsUndAux ds
    else c.isDigit && digitsUndAux cs

/-- A valid base-10 digit run: nonempty, starts with a digit, single
underscores only between digits. -/
def digitsUnd : List Char → Bool
  | [] => false
  | c :: cs => c.isDigit && digitsUndAux cs

/-- Numeric value of a digit run (underscores ignored). -/
def digitsVal (cs : List Char) : Nat :=
  (cs.filter (fun c => c != '_')).foldl (fun n c => 10 * n + (c.toNat - '0'.toNat)) 0

/-- Model of Python `int(str)`: optional surrounding whitespace, optional sign,
one base-10 digit run.  Unicode digits are outside the model.  `none` models a
`ValueError`. -/
def pyInt (s : String) : Option Int :=
  match (pyStrip s).data with
  | '+' :: rest => if digitsUnd rest then some ((digitsVal rest : Nat) : Int) else none
  | '-' :: rest => if digitsUnd rest then some (-((digitsVal rest : Nat) : Int)) else none
  | rest => if digitsUnd rest then some ((digitsVal rest : Nat) : Int) else none

/-- Split a character list at the first `e`/`E` (exponent marker). -/
def splitAtExp : List Char → List Char × Option (List Char)
  | [] => ([], none)
  | c :: cs =>
    if c == 'e' || c == 'E' then ([], some cs)
    else
      let p := splitAtExp cs
      (c :: p.1, p.2)

/-- Split a character list at the first `.` (decimal point). -/
def splitAtDot : List Char → List Char × Option (List Char)
  | [] => ([], none)
  | c :: cs =>
    if c == '.' then ([], some cs)
    else
      let p := splitAtDot cs
      (c :: p.1, p.2)

/-- An integer-part or fraction-part group: may be empty, otherwise a digit
run. -/
def decGroupOk (cs : List Char) : Bool :=
  cs.isEmpty || digitsUnd cs

/-- Signed digit run (exponent part of a float literal). -/
def signedDigits (cs : List Char) : Option Int :=
  match cs with
  | '+' :: er => if digitsUnd er then some ((digitsVal er : Nat) : Int) else none
  | '-' :: er => if digitsUnd er then some (-((digitsVal er : Nat) : Int)) else none
  | er => if digitsUnd er then some ((digitsVal er : Nat) : Int) else none

/-- Model of Python `float(str)` on finite decimal literals: optional
whitespace and sign, then `digits [. digits] [exp]`, `. digits [exp]` or
`digits . [exp]`, with Python 3 underscore grouping.  The value is the exact
rational `sign * (intPart + fracPart / 10^fracLen) * 10^exp`, assembled as one
`mkRat` over integer arithmetic (IEEE-754 rounding is outside the model).
The non-finite literals (`inf`, `nan`) and unicode digits Python also accepts
are outside this rational-number model and are treated as non-parsing.
`none` models a `ValueError`. -/
def pyFloat (s : String) : Option Rat :=
  let cs := (pyStrip s).data
  let signBody : Int × List Char :=
    match cs with
    | '+' :: rest => (1, rest)
    | '-' :: rest => (-1, rest)
    | rest => (1, rest)
  let me := splitAtExp signBody.2
  let ipfp := splitAtDot me.1
  let ip := ipfp.1
  let fp := (ipfp.2).getD []
  let mantOk := decGroupOk ip && decGroupOk fp && !(ip.isEmpty && fp.isEmpty)
  let expVal : Option Int :=
    match me.2 with
    | none => some 0
    | some ecs => signedDigits ecs
  if mantOk then
    match expVal with
    | none => none
    | some e =>
      let fracLen := (fp.filter (fun c => c != '_')).length
      let mantNum : Nat := digitsVal ip * 10 ^ fracLen + digitsVal fp
      some (mkRat (signBody.1 * (mantNum : Int) * 10 ^ e.toNat)
                  (10 ^ fracLen * 10 ^ (-e).toNat))
  else none

/-- Ten consecutive pattern characters of `^\d{2}/\d{2}/\d{4}$`. -/
def dateDigits : List Char → Bool
  | [a, b, s1, c, d, s2, e, f, g, h] =>
    a.isDigit && b.isDigit && s1 == '/' && c.isDigit && d.isDigit && s2 == '/' &&
      e.isDigit && f.isDigit && g.isDigit && h.isDigit
  | _ => false

/-- Drop one final newline, mirroring how the `$` anchor of `re.match` also
matches just before a single trailing newline. -/
def chopFinalNewline (cs : List Char) : List Char :=
  match cs.reverse with
  | '\n' :: rest => rest.reverse
  | _ => cs

/-- Model of `re.match(r'^\d{2}/\d{2}/\d{4}$', s)` being non-None (ASCII
digits; `\d` additionally matches unicode digits, outside the model). -/
def dateMatch (s : String) : Bool :=
  dateDigits (chopFinalNewline s.data)

/-! ## Column mappings (src/config.py) -/

/-- `config.COLUMN_MAPPING`: logical inventory field name to column letter. -/
def COLUMN_MAPPING : List (String × String) :=
  [("uuid", "A"), ("product_name", "B"), ("date_purchased", "C"), ("quantity", "D"),
   ("store", "H"), ("links", "J"), ("cost_per_unit", "L"), ("tax", "M"),
   ("retail_price", "O")]

/-- `config.SALES_COLUMN_MAPPING`: logical sale field name to column letter. -/
def SALES_COLUMN_MAPPING : List (String × String) :=
  [("product_name", "B"), ("sold_date", "C"), ("quantity_sold", "D"),
   ("price_per_unit", "F"), ("shipping_cost", "H")]

/-! ## Record Writer (`GoogleSheetsManager.write_data_to_row`) -/

/-- One `(range, value)` entry of the batched update body. -/
structure CellUpdate where
  range : String
  value : String
deriving DecidableEq, Repr

/-- Result of `write_data_to_row`: the batched update entries it built, how
many `batchUpdate` network calls it issued, and its boolean return value. -/
structure WriteResult where
  updates : List CellUpdate
  batchUpdateCalls : Nat
  success : Bool
deriving DecidableEq, Repr

/-- `GoogleSheetsManager.write_data_to_row`: for each `(field, value)` pair,
skip it unless `field` is in the column mapping and `value` is not None;
if nothing remains, return False having made no network call, else issue one
batched update and return True.  `data` is the dict in insertion order; an
absent optional value is `none` (Python `None`). -/
def write_data_to_row (sheetName : String) (rowNumber : Int)
    (data : List (String × Option String))
    (columnMapping : List (String × String)) : WriteResult :=
  let update_data := data.filterMap fun fv =>
    match columnMapping.lookup fv.1, fv.2 with
    | some column, some value =>
        some { range := sheetName ++ "!" ++ column ++ toString rowNumber, value := value }
    | _, _ => none
  if update_data.isEmpty then
    { updates := [], batchUpdateCalls := 0, success := false }
  else
    { updates := update_data, batchUpdateCalls := 1, success := true }

/-! ## Record Normalizer (the cell parsers of `read_inventory`/`read_sales`) -/

/-- Currency cleanup `str(x).replace('$', '').replace(',', '')`. -/
def cleanCurrency (s : String) : String :=
  removeChar ',' (removeChar '$' s)

/-- `float(str(x).replace('$', '').replace(',', '')) if x else 0.0`, with the
surrounding `except ValueError` yielding `0.0`. -/
def parseCurrency (s : String) : Rat :=
  if s ≠ "" then (pyFloat (cleanCurrency s)).getD 0 else 0

/-- `int(str(x).replace(',', '')) if x else 0`, with the surrounding
`except ValueError` yielding `0`. -/
def parseInteger (s : String) : Int :=
  if s ≠ "" then (pyInt (removeChar ',' s)).getD 0 else 0

/-- The sold-checkbox test `x and str(x).upper() in ['TRUE', 'YES', '1']`:
the raw cell text is truthy (nonempty) and its uppercase form is one of the
three tokens.  Note: the code does not strip the value. -/
def parseBoolean (s : String) : Bool :=
  decide (s ≠ "" ∧ (pyUpper s = "TRUE" ∨ pyUpper s = "YES" ∨ pyUpper s = "1"))

/-! ## Record Reader (`GoogleSheetsManager.read_inventory`) -/

/-- One decoded inventory item as appended to `inventory_items`. -/
structure InventoryItem where
  uuid : String
  product_name : String
  date_purchased : String
  qty_available : Int
  cost_per_unit : Rat
  tax_per_unit : Rat
  row_number : Nat
deriving DecidableEq, Repr

/-- `while len(row) < 20: row.append('')`. -/
def padTo (n : Nat) (row : List String) : List String :=
  row ++ List.replicate (n - row.length) ""

/-- `row[i]` on the row padded to the 20 columns of `A:T`. -/
def cellAt (row : List String) (i : Nat) : String :=
  (padTo 20 row).getD i ""

/-- The tax-per-unit computation of `read_inventory`: both cells truthy, both
parse as floats (tax with `$`/`,` removed, quantity with `,` removed) and the
quantity is positive, else `0.0` (the `except` clause also yields `0.0`). -/
def taxPerUnitOf (tax_total qty_purchased : String) : Rat :=
  if tax_total ≠ "" ∧ qty_purchased ≠ "" then
    match pyFloat (cleanCurrency tax_total), pyFloat (removeChar ',' qty_purchased) with
    | some tax_float, some qty_float =>
        if 0 < qty_float then tax_float / qty_float else 0
    | _, _ => 0
  else 0

/-- The body of the `for row_index, row in enumerate(values)` loop of
`read_inventory` for one row: pad to the 20 columns of `A:T`, skip the row if
the product name (column B) is empty or whitespace-only, skip it if the sold
checkbox (column T) is truthy, otherwise build the item with
`row_number = start_row + row_index`. -/
def decodeInventoryRow (start_row row_index : Nat) (row : List String) :
    Option InventoryItem :=
  let uuid_val := cellAt row 0
  let product_name := cellAt row 1
  let date_purchased := cellAt row 2
  let qty_purchased := cellAt row 3
  let qty_available := cellAt row 4
  let cost_per_unit := cellAt row 11
  let tax_total := cellAt row 12
  let sold_checkbox := cellAt row 19
  if product_name = "" ∨ pyStrip product_name = "" then none
  else if parseBoolean sold_checkbox then none
  else some
    { uuid := if uuid_val ≠ "" then pyStrip uuid_val else "",
      product_name := pyStrip product_name,
      date_purchased := if date_purchased ≠ "" then pyStrip date_purchased else "",
      qty_available := parseInteger qty_available,
      cost_per_unit := parseCurrency cost_per_unit,
      tax_per_unit := taxPerUnitOf tax_total qty_purchased,
      row_number := start_row + row_index }

/-- The enumerate loop of `read_inventory`, carrying the running row index. -/
def readInventoryRows (start_row : Nat) : Nat → List (List String) → List InventoryItem
  | _, [] => []
  | idx, row :: rest =>
    match decodeInventoryRow start_row idx row with
    | some item => item :: readInventoryRows start_row (idx + 1) rest
    | none => readInventoryRows start_row (idx + 1) rest

/-- `read_inventory` applied to the fetched rectangular range
`A{start_row}:T{last_row-1}` (`values`): decode and filter every row. -/
def read_inventory (start_row : Nat) (values : List (List String)) :
    List InventoryItem :=
  readInventoryRows start_row 0 values

/-! ## User registration and backing-store effects

The guided flows consult the user-registration store (`Database.get_user`)
and then talk to the spreadsheet collaborator.  The registration lookup result
and the row number returned by the external Apps Script row-insertion call are
inputs of the model; the spreadsheet calls a flow would make are collected in
order as an explicit effect list. -/

/-- The fields of a `users` row that the flows read (`Database.get_user`). -/
structure UserReg where
  spreadsheet_id : String
  sheet_name : String
deriving DecidableEq, Repr

/-- One backing-store (spreadsheet) call.  `batchWrite` records the field
names of the `data` dict handed to `write_data_to_row` (the cell values are
the user-entered strings and are not inspected by any verified property). -/
inductive SheetEffect where
  | createRow (spreadsheetId sheetName functionName : String)
  | batchWrite (spreadsheetId sheetName : String) (row : Int) (fields : List String)
  | setTextColor (spreadsheetId sheetName cell : String)
  | writeFormula (spreadsheetId sheetName cell : String)
  | deleteRow (spreadsheetId sheetName : String) (row : Int)
deriving DecidableEq, Repr

/-! ## Guided Input Flow, inventory creation (src/commands/add.py) -/

/-- Terminal outcomes of the add flow (one per user-visible reply). -/
inductive AddOutcome where
  | invalidDate
  | invalidQuantity
  | invalidCostTax
  | notRegistered
  | invalidRetail
  | rowCreationFailed
  | success (row : Int)
deriving DecidableEq, Repr

/-- The user-visible abort messages of the add flow, verbatim from
src/commands/add.py (`none` for the success reply, which is elided). -/
def addAbortMessage : AddOutcome → Option String
  | .invalidDate => some "❌ Invalid date format. Please use MM/DD/YYYY (e.g., 01/15/2025)"
  | .invalidQuantity => some "❌ Quantity must be a positive number"
  | .invalidCostTax => some "❌ Cost and Tax must be valid numbers"
  | .notRegistered => some "❌ You haven't set up your Google Sheets yet! Use `/setup` first."
  | .invalidRetail => some "❌ Retail price must be a valid number"
  | .rowCreationFailed =>
      some "❌ Failed to create new row in Google Sheets. Make sure your Apps Script is deployed correctly."
  | .success _ => none

/-- Result of `AddProductStep1Modal.on_submit`: abort with a message, or
proceed to store selection carrying the collected values. -/
inductive Step1Result where
  | abort (o : AddOutcome)
  | proceed (product_name date_purchased : String) (quantity : Int) (cost tax : Rat)
deriving DecidableEq, Repr

/-- `AddProductStep1Modal.on_submit`: validate the date format, then the
quantity (`int`, positive), then cost and tax (`float`, each nonnegative),
stopping at the first failure. -/
def addStep1Submit (product_name date_purchased quantity cost_per_unit tax : String) :
    Step1Result :=
  if dateMatch date_purchased = false then .abort .invalidDate
  else
    match pyInt quantity with
    | none => .abort .invalidQuantity
    | some quantity_val =>
      if quantity_val ≤ 0 then .abort .invalidQuantity
      else
        match pyFloat cost_per_unit with
        | none => .abort .invalidCostTax
        | some cost_val =>
          match pyFloat tax with
          | none => .abort .invalidCostTax
          | some tax_val =>
            if cost_val < 0 ∨ tax_val < 0 then .abort .invalidCostTax
            else .proceed product_name date_purchased quantity_val cost_val tax_val

/-- The retail-price validation of `AddProductStep2Modal.on_submit`: empty
means no retail price, otherwise it must parse as a nonnegative float;
`none` is the abort case. -/
def retailCheck (retail_price : String) : Option (Option Rat) :=
  if retail_price ≠ "" then
    match pyFloat retail_price with
    | none => none
    | some retail_val => if retail_val < 0 then none else some (some retail_val)
  else some none

/-- The environment of the commit step: the `Database.get_user` result and
the `newRow` value returned by the Apps Script call (`None` when the script
reported no row). -/
structure AddEnv where
  user : Option UserReg
  newRow : Option Int
deriving DecidableEq, Repr

/-- The keys of the `data` dict written by `AddProductStep2Modal.on_submit`. -/
def addDataFields : List String :=
  ["uuid", "product_name", "date_purchased", "quantity", "store", "links",
   "cost_per_unit", "tax", "retail_price"]

/-- The whole guided inventory-creation flow: step 1 validation, store
selection (a fixed dropdown, cannot fail), then `AddProductStep2Modal.on_submit`:
registration check, retail-price validation, the Apps Script `createRow` call,
the batched field write, the uuid text-color call and the hyperlink formula
write.  Returns the terminal outcome and the spreadsheet calls made. -/
def addFlow (env : AddEnv)
    (product_name date_purchased quantity cost_per_unit tax : String)
    (_store _links retail_price : String) : AddOutcome × List SheetEffect :=
  match addStep1Submit product_name date_purchased quantity cost_per_unit tax with
  | .abort o => (o, [])
  | .proceed _ _ _ _ _ =>
    match env.user with
    | none => (.notRegistered, [])
    | some user =>
      match retailCheck retail_price with
      | none => (.invalidRetail, [])
      | some _ =>
        let effCreate :=
          SheetEffect.createRow user.spreadsheet_id user.sheet_name "addRowAboveTotalSelective"
        match env.newRow with
        | none => (.rowCreationFailed, [effCreate])
        | some new_row =>
          if new_row = 0 then (.rowCreationFailed, [effCreate])
          else
            (.success new_row,
             [effCreate,
              .batchWrite user.spreadsheet_id user.sheet_name new_row addDataFields,
              .setTextColor user.spreadsheet_id user.sheet_name ("A" ++ toString new_row),
              .writeFormula user.spreadsheet_id user.sheet_name ("B" ++ toString new_row)])

/-! ## Selection-and-Mutate Flow, edit (src/commands/edit.py) -/

/-- The selected item held by `EditInventoryModal` (`self.item`, an entry of
`read_inventory`'s output); `on_submit` reads `product_name` (the
changed-field comparison) and `row_number` (the mutation key), the other
fields are the modal's pre-filled defaults. -/
structure EditItemCtx where
  product_name : String
  date_purchased : String
  qty_available : Int
  cost_per_unit : Rat
  tax_per_unit : Rat
  row_number : Int
deriving DecidableEq, Repr

/-- Terminal outcomes of the edit flow; `updated` carries the keys of the
partial update map in insertion order. -/
inductive EditOutcome where
  | notRegistered
  | invalidDate
  | invalidQuantity
  | invalidCost
  | invalidTax
  | noChanges
  | updated (row : Int) (fields : List String)
deriving DecidableEq, Repr

/-- `EditInventoryModal.on_submit`: registration check, then build the
partial update map — `product_name` only when nonempty and different from the
item's current name; date when nonempty and well-formed; quantity when
nonempty, an integer and `≥ 0`; cost and tax when nonempty, floats and `≥ 0`
— aborting at the first invalid nonempty field; report "No changes were
made." on an empty map, else one `write_data_to_row` call at the item's
`row_number`. -/
def editSubmit (user : Option UserReg) (item : EditItemCtx)
    (product_name date_purchased quantity cost_per_unit tax : String) :
    EditOutcome × List SheetEffect :=
  match user with
  | none => (.notRegistered, [])
  | some u =>
    let d0 : List String :=
      if product_name ≠ "" ∧ product_name ≠ item.product_name then ["product_name"] else []
    match (if date_purchased = "" then some d0
           else if dateMatch date_purchased then some (d0 ++ ["date_purchased"])
           else none) with
    | none => (.invalidDate, [])
    | some d1 =>
      match (if quantity = "" then some d1
             else match pyInt quantity with
               | none => none
               | some quantity_val =>
                 if quantity_val < 0 then none else some (d1 ++ ["quantity"])) with
      | none => (.invalidQuantity, [])
      | some d2 =>
        match (if cost_per_unit = "" then some d2
               else match pyFloat cost_per_unit with
                 | none => none
                 | some cost_val =>
                   if cost_val < 0 then none else some (d2 ++ ["cost_per_unit"])) with
        | none => (.invalidCost, [])
        | some d3 =>
          match (if tax = "" then some d3
                 else match pyFloat tax with
                   | none => none
                   | some tax_val =>
                     if tax_val < 0 then none else some (d3 ++ ["tax"])) with
          | none => (.invalidTax, [])
          | some d4 =>
            if d4 = [] then (.noChanges, [])
            else
              (.updated item.row_number d4,
               [.batchWrite u.spreadsheet_id u.sheet_name item.row_number d4])

/-! ## Sale-recording flow (src/commands/sales.py) -/

/-- Terminal outcomes of `RecordSaleModal.on_submit`. -/
inductive SaleOutcome where
  | invalidDate
  | invalidQuantity
  | invalidPriceShipping
  | notRegistered
  | rowCreationFailed
  | success (row : Int)
deriving DecidableEq, Repr

/-- The keys of the `data` dict written by `RecordSaleModal.on_submit`. -/
def saleDataFields : List String :=
  ["product_name", "sold_date", "quantity_sold", "price_per_unit", "shipping_cost"]

/-- `RecordSaleModal.on_submit`: validate sold date, quantity (positive
integer), price and shipping (nonnegative floats) — note the registration
check happens only after these validations — then the Apps Script call on the
Sales sheet and the batched field write. -/
def recordSaleSubmit (user : Option UserReg) (newRow : Option Int)
    (_product_name sold_date quantity_sold price_per_unit shipping_cost : String) :
    SaleOutcome × List SheetEffect :=
  if dateMatch sold_date = false then (.invalidDate, [])
  else
    match pyInt quantity_sold with
    | none => (.invalidQuantity, [])
    | some quantity_val =>
      if quantity_val ≤ 0 then (.invalidQuantity, [])
      else
        match pyFloat price_per_unit with
        | none => (.invalidPriceShipping, [])
        | some price_val =>
          match pyFloat shipping_cost with
          | none => (.invalidPriceShipping, [])
          | some shipping_val =>
            if price_val < 0 ∨ shipping_val < 0 then (.invalidPriceShipping, [])
            else
              match user with
              | none => (.notRegistered, [])
              | some u =>
                let effCreate :=
                  SheetEffect.createRow u.spreadsheet_id "Sales" "addRowAboveTotalSelective_Sales"
                match newRow with
                | none => (.rowCreationFailed, [effCreate])
                | some new_row =>
                  if new_row = 0 then (.rowCreationFailed, [effCreate])
                  else
                    (.success new_row,
                     [effCreate, .batchWrite u.spreadsheet_id "Sales" new_row saleDataFields])

/-! ## Helper lemmas -/

/-- A retained record's `row_number` is `start_row` plus the row's index in
the fetched range. -/
theorem decode_row_number (start_row row_index : Nat) (row : List String)
    (item : InventoryItem)
    (h : decodeInventoryRow start_row row_index row = some item) :
    item.row_number = start_row + row_index := by
  simp only [decodeInventoryRow] at h
  split at h
  · exact absurd h (by simp)
  · split at h
    · exact absurd h (by simp)
    · rw [Option.some_inj] at h
      subst h
      rfl

/-- Every item produced by the enumerate loop comes from a row of the input,
decoded at that row's original index. -/
theorem readRows_mem (start_row : Nat) (values : List (List String)) :
    ∀ (idx : Nat) (item : InventoryItem),
      item ∈ readInventoryRows start_row idx values →
      ∃ i row, values[i]? = some row ∧
        decodeInventoryRow start_row (idx + i) row = some item := by
  induction values with
  | nil => intro idx item h; simp [readInventoryRows] at h
  | cons r rest ih =>
    intro idx item h
    simp only [readInventoryRows] at h
    cases hd : decodeInventoryRow start_row idx r with
    | none =>
      rw [hd] at h
      obtain ⟨i, row, hget, hdec⟩ := ih (idx + 1) item h
      refine ⟨i + 1, row, by simpa using hget, ?_⟩
      have harith : idx + (i + 1) = idx + 1 + i := by omega
      rw [harith]
      exact hdec
    | some it =>
      rw [hd] at h
      rcases List.mem_cons.mp h with h1 | h2
      · exact ⟨0, r, by simp, by rw [Nat.add_zero, hd, h1]⟩
      · obtain ⟨i, row, hget, hdec⟩ := ih (idx + 1) item h2
        refine ⟨i + 1, row, by simpa using hget, ?_⟩
        have harith : idx + (i + 1) = idx + 1 + i := by omega
        rw [harith]
        exact hdec

/-- Concrete 7-row fetched range whose rows at relative offsets 2 and 5 have
an empty product name (each row listed as its `A`, `B` cells). -/
def rowsExample : List (List String) :=
  [["", "A"], ["", "B"], ["", ""], ["", "D"], ["", "E"], ["", ""], ["", "G"]]

/-- The decoded record of `rowsExample`'s first row. -/
def itemExample : InventoryItem :=
  { uuid := "", product_name := "A", date_purchased := "", qty_available := 0,
    cost_per_unit := 0, tax_per_unit := 0, row_number := 8 }

/-! ## The claims -/

/-- C1: every record retained by the inventory reader carries
`rowPosition = startRow + i` for the row's index `i` in the originally fetched
range, before any filtering; concretely, a range starting at row 8 whose rows
at relative offsets 2 and 5 are empty-product rows yields row positions
8, 9, 11, 12, 14 — dropped rows never shift later positions downward. -/
theorem C1_row_position (start_row : Nat) (values : List (List String)) :
    (∀ item ∈ read_inventory start_row values,
      ∃ i row, values[i]? = some row ∧
        decodeInventoryRow start_row i row = some item ∧
        item.row_number = start_row + i) ∧
    (read_inventory 8 rowsExample).map (fun it => it.row_number) =
      [8, 9, 11, 12, 14] := by
  constructor
  · intro item h
    obtain ⟨i, row, hget, hdec⟩ := readRows_mem start_row values 0 item h
    rw [Nat.zero_add] at hdec
    exact ⟨i, row, hget, hdec, decode_row_number start_row i row item hdec⟩
  · decide

/-- C1 witness: the first record of the concrete range comes from row index 0
and carries row position 8 + 0. -/
theorem C1_row_position_witness :
    ∃ i row, rowsExample[i]? = some row ∧
      decodeInventoryRow 8 i row = some itemExample ∧
      itemExample.row_number = 8 + i :=
  (C1_row_position 8 rowsExample).1 itemExample (by decide)

/-- A concrete fetched row with a non-empty, non-whitespace product name but a
`TRUE` sold checkbox in column T. -/
def soldRowExample : List String :=
  ["u1", "Widget", "", "", "", "", "", "", "", "",
   "", "", "", "", "", "", "", "", "", "TRUE"]

/-- C2 counterexample: the row `soldRowExample` has product name `"Widget"`,
which is neither empty nor whitespace-only, yet the inventory reader drops it
(the sold-checkbox filter), so a fetched row with a non-empty product name
does not always appear in the returned sequence. -/
theorem C2_counterexample :
    pyStrip "Widget" ≠ "" ∧
    soldRowExample.getD 1 "" = "Widget" ∧
    read_inventory 8 [soldRowExample] = [] := by
  decide

/-- A row decodes to nothing exactly when its product-name cell is empty or
whitespace-only, or its sold-checkbox cell is truthy. -/
theorem decode_eq_none_iff (start_row row_index : Nat) (row : List String) :
    decodeInventoryRow start_row row_index row = none ↔
      ((cellAt row 1 = "" ∨ pyStrip (cellAt row 1) = "") ∨
        parseBoolean (cellAt row 19) = true) := by
  simp only [decodeInventoryRow]
  split
  next h1 => exact iff_of_true rfl (Or.inl h1)
  next h1 =>
    split
    next h2 => exact iff_of_true rfl (Or.inr h2)
    next h2 => exact iff_of_false (by simp) (not_or.mpr ⟨h1, h2⟩)

/-- C2 amended: a fetched row is dropped if and only if its product-name cell
is empty or whitespace-only, or its sold-checkbox cell (column T) is truthy
(nonempty with uppercase form TRUE, YES or 1). -/
theorem C2_drop_iff (start_row row_index : Nat) (row : List String) :
    decodeInventoryRow start_row row_index row = none ↔
      ((cellAt row 1 = "" ∨ pyStrip (cellAt row 1) = "") ∨
        parseBoolean (cellAt row 19) = true) :=
  decode_eq_none_iff start_row row_index row

/-- C2 amended-claim witness: the sold example row is dropped exactly by the
sold-checkbox disjunct. -/
theorem C2_drop_iff_witness :
    decodeInventoryRow 8 0 soldRowExample = none :=
  (C2_drop_iff 8 0 soldRowExample).mpr (by decide)

/-- C3: the Writer skips every `(name, value)` pair whose name is absent from
the column mapping or whose value is None; when every pair is skipped the
resulting update set is empty, no `batchUpdate` network call is made, and the
no-op result (the `False` return) comes back. -/
theorem C3_writer_noop (sheetName : String) (rowNumber : Int)
    (data : List (String × Option String)) (mapping : List (String × String))
    (h : ∀ p ∈ data, mapping.lookup p.1 = none ∨ p.2 = none) :
    write_data_to_row sheetName rowNumber data mapping =
      { updates := [], batchUpdateCalls := 0, success := false } := by
  unfold write_data_to_row
  have hempty : (data.filterMap fun fv =>
      match mapping.lookup fv.1, fv.2 with
      | some column, some value =>
          some ({ range := sheetName ++ "!" ++ column ++ toString rowNumber,
                  value := value } : CellUpdate)
      | _, _ => none) = [] := by
    rw [List.filterMap_eq_nil_iff]
    intro p hp
    rcases h p hp with h1 | h1
    · simp [h1]
    · cases hm : mapping.lookup p.1 <;> simp [h1, hm]
  rw [hempty]
  rfl

/-- C3 witness: a fields map whose keys are unmapped or whose values are None
yields the no-op result with zero network writes. -/
theorem C3_writer_noop_witness :
    write_data_to_row "Inventory" 8
      [("unmapped_field", some "x"), ("tax", none)] COLUMN_MAPPING =
      { updates := [], batchUpdateCalls := 0, success := false } :=
  C3_writer_noop "Inventory" 8 [("unmapped_field", some "x"), ("tax", none)]
    COLUMN_MAPPING (by decide)

/-- C6: the derived tax-per-unit equals `taxTotal / quantityPurchased` exactly
when both cells are present (nonempty) and parse and the quantity is positive,
and is `0` when the quantity parses nonpositive or the tax cell does not
parse; concretely, tax `10.00` over quantity `4` gives `2.50`, and quantity
`0` gives `0` with no division error. -/
theorem C6_tax_per_unit (tax_total qty_purchased : String) :
    (∀ tv qv, tax_total ≠ "" → qty_purchased ≠ "" →
      pyFloat (cleanCurrency tax_total) = some tv →
      pyFloat (removeChar ',' qty_purchased) = some qv →
      0 < qv → taxPerUnitOf tax_total qty_purchased = tv / qv) ∧
    (∀ qv, pyFloat (removeChar ',' qty_purchased) = some qv → qv ≤ 0 →
      taxPerUnitOf tax_total qty_purchased = 0) ∧
    (pyFloat (cleanCurrency tax_total) = none →
      taxPerUnitOf tax_total qty_purchased = 0) ∧
    taxPerUnitOf "10.00" "4" = 5 / 2 ∧
    taxPerUnitOf "10.00" "0" = 0 := by
  refine ⟨?_, ?_, ?_, ?_, ?_⟩
  · intro tv qv ht hq htv hqv hpos
    simp [taxPerUnitOf, ht, hq, htv, hqv, hpos]
  · intro qv hqv hle
    unfold taxPerUnitOf
    split
    · rw [hqv]
      cases htv : pyFloat (cleanCurrency tax_total) with
      | none => rfl
      | some tv => simp [not_lt.mpr hle]
    · rfl
  · intro htv
    unfold taxPerUnitOf
    split
    · rw [htv]
    · rfl
  · have ht : pyFloat (cleanCurrency "10.00") = some 10 := by decide
    have hq : pyFloat (removeChar ',' "4") = some 4 := by decide
    norm_num [taxPerUnitOf, ht, hq]
    decide
  · have ht : pyFloat (cleanCurrency "10.00") = some 10 := by decide
    have hq : pyFloat (removeChar ',' "0") = some 0 := by decide
    norm_num [taxPerUnitOf, ht, hq]

/-- C6 witness: the general clause applied at tax `10.00`, quantity `4`. -/
theorem C6_tax_per_unit_witness :
    taxPerUnitOf "10.00" "4" = 10 / 4 :=
  (C6_tax_per_unit "10.00" "4").1 10 4 (by decide) (by decide) (by decide)
    (by decide) (by decide)

/-- C7 counterexample: the claim says the boolean parser is true iff the
uppercased *trimmed* value is TRUE/YES/1, but the code never trims: the input
`" TRUE"` (leading space) has uppercased trimmed value `"TRUE"` yet parses
false. -/
theorem C7_counterexample :
    parseBoolean " TRUE" = false ∧ pyUpper (pyStrip " TRUE") = "TRUE" := by
  decide

/-- C7 amended: the currency, integer and boolean cell parsers are total over
arbitrary strings; non-parsing input yields the defaults 0.0 / 0 / false, a
parsing input yields its value, and the boolean is true iff the uppercased
(untrimmed) value is one of TRUE, YES, 1. -/
theorem C7_normalizer_totality (s : String) :
    (pyFloat (cleanCurrency s) = none → parseCurrency s = 0) ∧
    (∀ v, pyFloat (cleanCurrency s) = some v → parseCurrency s = v) ∧
    (pyInt (removeChar ',' s) = none → parseInteger s = 0) ∧
    (∀ v, pyInt (removeChar ',' s) = some v → parseInteger s = v) ∧
    (parseBoolean s = true ↔
      (pyUpper s = "TRUE" ∨ pyUpper s = "YES" ∨ pyUpper s = "1")) := by
  refine ⟨?_, ?_, ?_, ?_, ?_⟩
  · intro h
    by_cases hs : s = "" <;> simp [parseCurrency, hs, h]
  · intro v h
    by_cases hs : s = ""
    · subst hs
      have : pyFloat (cleanCurrency "") = none := by decide
      rw [this] at h
      exact absurd h (by simp)
    · simp [parseCurrency, hs, h]
  · intro h
    by_cases hs : s = "" <;> simp [parseInteger, hs, h]
  · intro v h
    by_cases hs : s = ""
    · subst hs
      have : pyInt (removeChar ',' "") = none := by decide
      rw [this] at h
      exact absurd h (by simp)
    · simp [parseInteger, hs, h]
  · simp only [parseBoolean, decide_eq_true_eq]
    constructor
    · intro h
      exact h.2
    · intro h
      refine ⟨?_, h⟩
      intro hs
      subst hs
      revert h
      decide

/-- C7 witness: the parsing clause applied at the concrete input `"$1,234.50"`. -/
theorem C7_normalizer_totality_witness :
    parseCurrency "$1,234.50" = 1234.50 := by
  have h := (C7_normalizer_totality "$1,234.50").2.1 (mkRat 2469 2) (by decide)
  rw [h, Rat.mkRat_eq_div]
  norm_num

/-- Any row whose sold-checkbox cell uppercases to TRUE, YES or 1 decodes to
nothing. -/
theorem decode_sold_none (start_row row_index : Nat) (row : List String)
    (h : pyUpper (cellAt row 19) = "TRUE" ∨
         pyUpper (cellAt row 19) = "YES" ∨
         pyUpper (cellAt row 19) = "1") :
    decodeInventoryRow start_row row_index row = none := by
  have hne : cellAt row 19 ≠ "" := by
    intro he
    rw [he] at h
    revert h
    decide
  have hb : parseBoolean (cellAt row 19) = true := by
    simp only [parseBoolean, decide_eq_true_eq]
    exact ⟨hne, h⟩
  exact (decode_eq_none_iff start_row row_index row).mpr (Or.inr hb)

/-- If every row of the range decodes to nothing, the loop returns no items. -/
theorem readRows_all_skipped (start_row : Nat) (values : List (List String))
    (h : ∀ r ∈ values, ∀ j, decodeInventoryRow start_row j r = none) :
    ∀ idx, readInventoryRows start_row idx values = [] := by
  induction values with
  | nil => intro idx; rfl
  | cons r rest ih =>
    intro idx
    simp only [readInventoryRows]
    rw [h r (by simp) idx]
    exact ih (fun r2 hr2 j => h r2 (by simp [hr2]) j) (idx + 1)

/-- C10: beyond empty-product rows, the inventory reader also excludes every
row whose sold-checkbox cell (column T) uppercases to TRUE, YES or 1 — such a
row decodes to nothing even with a non-empty product name, and a range made
only of such rows yields an empty record sequence. -/
theorem C10_sold_rows_excluded (start_row row_index : Nat) (row : List String)
    (values : List (List String)) :
    (pyUpper (cellAt row 19) = "TRUE" ∨
     pyUpper (cellAt row 19) = "YES" ∨
     pyUpper (cellAt row 19) = "1" →
      decodeInventoryRow start_row row_index row = none) ∧
    ((∀ r ∈ values,
        pyUpper (cellAt r 19) = "TRUE" ∨
        pyUpper (cellAt r 19) = "YES" ∨
        pyUpper (cellAt r 19) = "1") →
      read_inventory start_row values = []) := by
  constructor
  · exact decode_sold_none start_row row_index row
  · intro h
    exact readRows_all_skipped start_row values
      (fun r hr j => decode_sold_none start_row j r (h r hr)) 0

/-- C10 witness: a row with product name `"Gadget"` and sold cell `"yes"`
(case-insensitive token) is excluded. -/
theorem C10_sold_rows_excluded_witness :
    decodeInventoryRow 8 0
      ["u2", "Gadget", "", "", "", "", "", "", "", "",
       "", "", "", "", "", "", "", "", "", "yes"] = none :=
  (C10_sold_rows_excluded 8 0
    ["u2", "Gadget", "", "", "", "", "", "", "", "",
     "", "", "", "", "", "", "", "", "", "yes"] []).1 (by decide)

/-- C4: step-1 fields are validated in the order date (format
`MM/DD/YYYY`), then quantity (integer > 0), then cost and tax (floats ≥ 0),
stopping at the first failure; any step-1 validation failure aborts the whole
flow before the `createRow` Apps Script call, with no backing-store effect of
any kind. -/
theorem C4_step1_validation (env : AddEnv)
    (product_name date_purchased quantity cost_per_unit tax : String)
    (store links retail_price : String) :
    (dateMatch date_purchased = false →
      addStep1Submit product_name date_purchased quantity cost_per_unit tax =
        .abort .invalidDate) ∧
    (dateMatch date_purchased = true →
      (pyInt quantity = none ∨ ∃ q, pyInt quantity = some q ∧ q ≤ 0) →
      addStep1Submit product_name date_purchased quantity cost_per_unit tax =
        .abort .invalidQuantity) ∧
    (dateMatch date_purchased = true →
      (∃ q, pyInt quantity = some q ∧ 0 < q) →
      (pyFloat cost_per_unit = none ∨ pyFloat tax = none ∨
        ∃ c t, pyFloat cost_per_unit = some c ∧ pyFloat tax = some t ∧
          (c < 0 ∨ t < 0)) →
      addStep1Submit product_name date_purchased quantity cost_per_unit tax =
        .abort .invalidCostTax) ∧
    (∀ o, addStep1Submit product_name date_purchased quantity cost_per_unit tax =
        .abort o →
      addFlow env product_name date_purchased quantity cost_per_unit tax
        store links retail_price = (o, [])) := by
  refine ⟨?_, ?_, ?_, ?_⟩
  · intro hd
    simp [addStep1Submit, hd]
  · intro hd hq
    rcases hq with hq | ⟨q, hq, hle⟩
    · simp [addStep1Submit, hd, hq]
    · simp [addStep1Submit, hd, hq, hle]
  · intro hd ⟨q, hq, hpos⟩ hct
    have hnle : ¬q ≤ 0 := not_le.mpr hpos
    rcases hct with hc | hc | ⟨c, t, hc, ht, hneg⟩
    · simp [addStep1Submit, hd, hq, hnle, hc]
    · cases hcv : pyFloat cost_per_unit with
      | none => simp [addStep1Submit, hd, hq, hnle, hcv]
      | some c => simp [addStep1Submit, hd, hq, hnle, hcv, hc]
    · simp [addStep1Submit, hd, hq, hnle, hc, ht, hneg]
  · intro o h
    simp [addFlow, h]

/-- C4 witness: a malformed date aborts step 1 with the invalid-date outcome
and the whole flow issues zero backing-store calls. -/
theorem C4_step1_validation_witness :
    addStep1Submit "Widget" "1/5/2025" "5" "10.00" "2.00" = .abort .invalidDate ∧
    addFlow ⟨some ⟨"sid", "Inventory"⟩, some 9⟩ "Widget" "1/5/2025" "5" "10.00"
      "2.00" "Amazon" "" "" = (.invalidDate, []) := by
  have h := C4_step1_validation ⟨some ⟨"sid", "Inventory"⟩, some 9⟩ "Widget"
    "1/5/2025" "5" "10.00" "2.00" "Amazon" "" ""
  exact ⟨h.1 (by decide), h.2.2.2 .invalidDate (h.1 (by decide))⟩

/-- C5: when step 1 passed, the user is registered, the retail price is
acceptable and the Apps Script call returns no row position, the flow aborts
with the row-creation-failed outcome having issued only the `createRow` call —
no field write, text-color or formula (finalize) effect — and the
row-creation-failed message differs from every validation-failure message. -/
theorem C5_row_creation_failure (env : AddEnv) (user : UserReg)
    (product_name date_purchased quantity cost_per_unit tax : String)
    (store links retail_price : String)
    (pn pd : String) (q : Int) (c t : Rat)
    (hstep : addStep1Submit product_name date_purchased quantity cost_per_unit tax =
      .proceed pn pd q c t)
    (huser : env.user = some user)
    (hretail : retailCheck retail_price ≠ none)
    (hrow : env.newRow = none) :
    addFlow env product_name date_purchased quantity cost_per_unit tax
        store links retail_price =
      (.rowCreationFailed,
       [SheetEffect.createRow user.spreadsheet_id user.sheet_name
          "addRowAboveTotalSelective"]) ∧
    (∀ sid sn r fs, SheetEffect.batchWrite sid sn r fs ∉
      (addFlow env product_name date_purchased quantity cost_per_unit tax
        store links retail_price).2) ∧
    (∀ sid sn cell, SheetEffect.setTextColor sid sn cell ∉
      (addFlow env product_name date_purchased quantity cost_per_unit tax
        store links retail_price).2) ∧
    (∀ sid sn cell, SheetEffect.writeFormula sid sn cell ∉
      (addFlow env product_name date_purchased quantity cost_per_unit tax
        store links retail_price).2) ∧
    addAbortMessage .rowCreationFailed ≠ addAbortMessage .invalidDate ∧
    addAbortMessage .rowCreationFailed ≠ addAbortMessage .invalidQuantity ∧
    addAbortMessage .rowCreationFailed ≠ addAbortMessage .invalidCostTax ∧
    addAbortMessage .rowCreationFailed ≠ addAbortMessage .invalidRetail := by
  have heq : addFlow env product_name date_purchased quantity cost_per_unit tax
      store links retail_price =
      (.rowCreationFailed,
       [SheetEffect.createRow user.spreadsheet_id user.sheet_name
          "addRowAboveTotalSelective"]) := by
    cases hr : retailCheck retail_price with
    | none => exact absurd hr hretail
    | some v => simp [addFlow, hstep, huser, hr, hrow]
  refine ⟨heq, ?_, ?_, ?_, by decide, by decide, by decide, by decide⟩
  · intro sid sn r fs
    rw [heq]
    simp
  · intro sid sn cell
    rw [heq]
    simp
  · intro sid sn cell
    rw [heq]
    simp

/-- C5 witness: valid step-1 inputs, a registered user, no retail price and a
`None` Apps Script result produce exactly the aborted commit. -/
theorem C5_row_creation_failure_witness :
    addFlow ⟨some ⟨"sid", "Inventory"⟩, none⟩ "Widget" "01/15/2025" "5" "10.00"
      "2.00" "Amazon" "" "" =
      (.rowCreationFailed,
       [SheetEffect.createRow "sid" "Inventory" "addRowAboveTotalSelective"]) :=
  (C5_row_creation_failure ⟨some ⟨"sid", "Inventory"⟩, none⟩ ⟨"sid", "Inventory"⟩
    "Widget" "01/15/2025" "5" "10.00" "2.00" "Amazon" "" ""
    "Widget" "01/15/2025" 5 10 2 (by decide) rfl (by decide) rfl).1

/-- The selected record of the C8 scenario: product `"Widget"` purchased
`01/15/2025`, living at backing-store row 9. -/
def editItemExample : EditItemCtx :=
  { product_name := "Widget", date_purchased := "01/15/2025", qty_available := 5,
    cost_per_unit := 10, tax_per_unit := 0, row_number := 9 }

/-- C8 counterexample: submitting the edit form with the product name and the
date equal to the record's current (pre-filled) values — i.e. left unchanged —
and every other field blank does not give the "no changes" outcome: the
unchanged date is still collected and one backing-store write is issued. -/
theorem C8_counterexample :
    editItemExample.product_name = "Widget" ∧
    editItemExample.date_purchased = "01/15/2025" ∧
    editSubmit (some ⟨"sid", "Inventory"⟩) editItemExample
        editItemExample.product_name editItemExample.date_purchased "" "" "" =
      (.updated 9 ["date_purchased"],
       [SheetEffect.batchWrite "sid" "Inventory" 9 ["date_purchased"]]) := by
  refine ⟨rfl, rfl, ?_⟩
  decide

/-- C8 amended: only the product-name field is compared against its original
value (collected only when nonempty and changed); the date, quantity, cost and
tax fields are collected whenever nonempty and valid, changed or not;
submitting with every field blank yields the "no changes" outcome, not an
error, and issues zero writes. -/
theorem C8_edit_collection (u : UserReg) (item : EditItemCtx) (d : String) :
    editSubmit (some u) item "" "" "" "" "" = (.noChanges, []) ∧
    editSubmit (some u) item item.product_name "" "" "" "" = (.noChanges, []) ∧
    (d ≠ "" → dateMatch d = true →
      editSubmit (some u) item "" d "" "" "" =
        (.updated item.row_number ["date_purchased"],
         [SheetEffect.batchWrite u.spreadsheet_id u.sheet_name item.row_number
            ["date_purchased"]])) := by
  refine ⟨?_, ?_, ?_⟩
  · simp [editSubmit]
  · simp [editSubmit]
  · intro hd hm
    simp [editSubmit, hd, hm]

/-- C8 witness: a nonempty well-formed date with everything else blank is
collected and written, whether or not it changed. -/
theorem C8_edit_collection_witness :
    editSubmit (some ⟨"sid", "Inventory"⟩) ⟨"Gadget", "01/10/2025", 3, 5, 0, 12⟩
        "" "01/20/2025" "" "" "" =
      (.updated 12 ["date_purchased"],
       [SheetEffect.batchWrite "sid" "Inventory" 12 ["date_purchased"]]) :=
  (C8_edit_collection ⟨"sid", "Inventory"⟩ ⟨"Gadget", "01/10/2025", 3, 5, 0, 12⟩
    "01/20/2025").2.2 (by decide) (by decide)

/-- C9 counterexample: in the sale-recording flow, input validation runs
before the registration lookup, so a user with no registration who submits a
malformed date gets the validation outcome, not the not-registered
short-circuit — the registration check is not performed first. -/
theorem C9_counterexample :
    recordSaleSubmit none (some 9) "Widget" "bad-date" "2" "5.00" "1.00" =
      (.invalidDate, []) ∧
    SaleOutcome.invalidDate ≠ SaleOutcome.notRegistered := by
  exact ⟨by decide, by decide⟩

/-- C9 amended: for a user with no registration, every modelled command issues
zero backing-store calls; the add flow (once step 1 passed) and the edit flow
short-circuit with the not-registered outcome, while the sale-recording flow
reaches the registration check only after its input validation. -/
theorem C9_registration_gate (newRow : Option Int)
    (product_name date_purchased quantity cost_per_unit tax : String)
    (store links retail_price : String)
    (item : EditItemCtx) (n2 d2 q2 c2 t2 : String) :
    (addFlow ⟨none, newRow⟩ product_name date_purchased quantity cost_per_unit
        tax store links retail_price).2 = [] ∧
    (∀ pn pd q c t,
      addStep1Submit product_name date_purchased quantity cost_per_unit tax =
        .proceed pn pd q c t →
      addFlow ⟨none, newRow⟩ product_name date_purchased quantity cost_per_unit
        tax store links retail_price = (.notRegistered, [])) ∧
    editSubmit none item n2 d2 q2 c2 t2 = (.notRegistered, []) ∧
    (recordSaleSubmit none newRow product_name date_purchased quantity
        cost_per_unit tax).2 = [] := by
  refine ⟨?_, ?_, rfl, ?_⟩
  · cases h : addStep1Submit product_name date_purchased quantity cost_per_unit tax with
    | abort o => simp [addFlow, h]
    | proceed pn pd q c t => simp [addFlow, h]
  · intro pn pd q c t h
    simp [addFlow, h]
  · unfold recordSaleSubmit
    repeat' split
    all_goals try rfl
    all_goals simp_all

/-- C9 witness: with valid inputs and no registration, the add flow ends in
the not-registered outcome with zero backing-store calls. -/
theorem C9_registration_gate_witness :
    addFlow ⟨none, some 9⟩ "Widget" "01/15/2025" "5" "10.00" "2.00" "Amazon"
      "" "" = (.notRegistered, []) :=
  (C9_registration_gate (some 9) "Widget" "01/15/2025" "5" "10.00" "2.00"
    "Amazon" "" "" ⟨"", "", 0, 0, 0, 0⟩ "" "" "" "" "").2.1
    "Widget" "01/15/2025" 5 10 2 (by decide)

end DiscordInventory
